import Mathlib

/-!
Verification development for the Personalized Patient Education System
(src/app.py).  The Streamlit session state and its operations are shallowly
embedded: Python dicts become association lists, the persisted JSON document
becomes a `Json` AST, remote model calls become an `Except GenerationError
String` parameter, and `uuid.uuid4()` / `datetime.now()` become explicit
string parameters (with freshness stated as a hypothesis where relevant).
-/

namespace PatientEducation

/-- JSON values, modelling the Python objects handled by `json.dump` /
`json.load` in src/app.py (strings, integers, booleans, null, lists, dicts
with string keys and insertion order). -/
inductive Json where
  | null : Json
  | bool (b : Bool) : Json
  | num (n : Int) : Json
  | str (s : String) : Json
  | arr (elems : List Json) : Json
  | obj (members : List (String × Json)) : Json

/-- Association-list lookup, modelling Python `dict.get(k)` / `k in d`
(first binding wins; in the embedded program keys are unique). -/
def dictGet {α : Type} : List (String × α) → String → Option α
  | [], _ => none
  | (k, v) :: t, key => if k = key then some v else dictGet t key

/-- Association-list update, modelling Python `d[k] = v`: an existing key
keeps its position and gets the new value, a new key is appended at the
end (Python dicts preserve insertion order). -/
def dictSet {α : Type} : List (String × α) → String → α → List (String × α)
  | [], key, v => [(key, v)]
  | (k, w) :: t, key, v =>
    if k = key then (key, v) :: t else (k, w) :: dictSet t key v

/-- A patient record, as built by the Add Patient form submit handler
(src/app.py lines 794-808). -/
structure Patient where
  id : String
  name : String
  age : Int
  gender : String
  education_level : String
  language : String
  condition : String
  treatment : String
  medications : String
  learning_style : String
  special_needs : String
  date_added : String
deriving DecidableEq

/-- A generated education material, as built by `generate_patient_education`
(src/app.py lines 204-211). -/
structure Material where
  id : String
  patient_id : String
  patient_name : String
  condition : String
  content : String
  timestamp : String
deriving DecidableEq

/-- One chat message, as appended by the Patient Chat page
(src/app.py lines 954-958 and 965-969). -/
structure ChatMessage where
  role : String
  content : String
  timestamp : String
deriving DecidableEq

/-- One quiz question of a knowledge assessment (the shape requested from the
model by `generate_knowledge_assessment`, src/app.py lines 59-71, and consumed
by `evaluate_responses`). -/
structure Question where
  text : String
  options : List String
  correct_answer : String
  explanation : String
  category : String
deriving DecidableEq

/-- One entry of the feedback list built by `evaluate_responses`
(src/app.py lines 116-121).  `user_answer = none` models Python `None`
(a missing submission). -/
structure FeedbackEntry where
  question : String
  user_answer : Option String
  correct_answer : String
  feedback : String
deriving DecidableEq

/-- The results dict built by `evaluate_responses` (src/app.py lines 100-105). -/
structure ScoreResult where
  total_questions : Nat
  correct_answers : Nat
  incorrect_answers : Nat
  feedback : List FeedbackEntry
deriving DecidableEq

/-- Per-patient knowledge-assessment state, as stored by the Knowledge
Assessment page (src/app.py lines 1243-1247): the generated quiz, the
submitted answers (question index to chosen option) and the optional result. -/
structure PatientAssessment where
  assessment : List Question
  user_responses : List (Nat × String)
  results : Option ScoreResult
deriving DecidableEq

/-- The Streamlit session state (src/app.py lines 25-32): patient records,
generated materials, per-patient chat histories and per-patient knowledge
assessments.  Python dicts keyed by patient id become association lists. -/
structure Session where
  patient_records : List Patient
  generated_materials : List Material
  chat_history : List (String × List ChatMessage)
  patient_assessments : List (String × PatientAssessment)
deriving DecidableEq

/-! ## Serialization of the persisted document -/

def encodePatient (p : Patient) : Json :=
  .obj [("id", .str p.id), ("name", .str p.name), ("age", .num p.age),
        ("gender", .str p.gender), ("education_level", .str p.education_level),
        ("language", .str p.language), ("condition", .str p.condition),
        ("treatment", .str p.treatment), ("medications", .str p.medications),
        ("learning_style", .str p.learning_style),
        ("special_needs", .str p.special_needs),
        ("date_added", .str p.date_added)]

def encodeMaterial (m : Material) : Json :=
  .obj [("id", .str m.id), ("patient_id", .str m.patient_id),
        ("patient_name", .str m.patient_name), ("condition", .str m.condition),
        ("content", .str m.content), ("timestamp", .str m.timestamp)]

def encodeChatMessage (m : ChatMessage) : Json :=
  .obj [("role", .str m.role), ("content", .str m.content),
        ("timestamp", .str m.timestamp)]

def encodeChatHistory (ch : List (String × List ChatMessage)) : Json :=
  .obj (ch.map (fun kv => (kv.1, .arr (kv.2.map encodeChatMessage))))

/-- `save_data` (src/app.py lines 263-270): serializes the three persisted
collections — and only those — into a single JSON document with top-level
keys `patients`, `materials` and `chat_history`. -/
def save_data (s : Session) : Json :=
  .obj [("patients", .arr (s.patient_records.map encodePatient)),
        ("materials", .arr (s.generated_materials.map encodeMaterial)),
        ("chat_history", encodeChatHistory s.chat_history)]

def jgetStr (kvs : List (String × Json)) (k : String) : Option String :=
  match dictGet kvs k with
  | some (.str s) => some s
  | _ => none

def jgetNum (kvs : List (String × Json)) (k : String) : Option Int :=
  match dictGet kvs k with
  | some (.num n) => some n
  | _ => none

def decodePatient (j : Json) : Option Patient :=
  match j with
  | .obj kvs => do
    let id ← jgetStr kvs "id"
    let name ← jgetStr kvs "name"
    let age ← jgetNum kvs "age"
    let gender ← jgetStr kvs "gender"
    let education_level ← jgetStr kvs "education_level"
    let language ← jgetStr kvs "language"
    let condition ← jgetStr kvs "condition"
    let treatment ← jgetStr kvs "treatment"
    let medications ← jgetStr kvs "medications"
    let learning_style ← jgetStr kvs "learning_style"
    let special_needs ← jgetStr kvs "special_needs"
    let date_added ← jgetStr kvs "date_added"
    pure { id, name, age, gender, education_level, language, condition,
           treatment, medications, learning_style, special_needs, date_added }
  | _ => none

def decodePatientList : List Json → Option (List Patient)
  | [] => some []
  | x :: t => do
    let p ← decodePatient x
    let r ← decodePatientList t
    pure (p :: r)

def decodePatients (j : Json) : Option (List Patient) :=
  match j with
  | .arr xs => decodePatientList xs
  | _ => none

def decodeMaterial (j : Json) : Option Material :=
  match j with
  | .obj kvs => do
    let id ← jgetStr kvs "id"
    let patient_id ← jgetStr kvs "patient_id"
    let patient_name ← jgetStr kvs "patient_name"
    let condition ← jgetStr kvs "condition"
    let content ← jgetStr kvs "content"
    let timestamp ← jgetStr kvs "timestamp"
    pure { id, patient_id, patient_name, condition, content, timestamp }
  | _ => none

def decodeMaterialList : List Json → Option (List Material)
  | [] => some []
  | x :: t => do
    let m ← decodeMaterial x
    let r ← decodeMaterialList t
    pure (m :: r)

def decodeMaterials (j : Json) : Option (List Material) :=
  match j with
  | .arr xs => decodeMaterialList xs
  | _ => none

def decodeChatMessage (j : Json) : Option ChatMessage :=
  match j with
  | .obj kvs => do
    let role ← jgetStr kvs "role"
    let content ← jgetStr kvs "content"
    let timestamp ← jgetStr kvs "timestamp"
    pure { role, content, timestamp }
  | _ => none

def decodeChatMessageList : List Json → Option (List ChatMessage)
  | [] => some []
  | x :: t => do
    let m ← decodeChatMessage x
    let r ← decodeChatMessageList t
    pure (m :: r)

def decodeChatEntries : List (String × Json) → Option (List (String × List ChatMessage))
  | [] => some []
  | (k, v) :: t =>
    match v with
    | .arr xs => do
      let msgs ← decodeChatMessageList xs
      let r ← decodeChatEntries t
      pure ((k, msgs) :: r)
    | _ => none

def decodeChatHistory (j : Json) : Option (List (String × List ChatMessage)) :=
  match j with
  | .obj kvs => decodeChatEntries kvs
  | _ => none

/-- Decoding of the persisted document, following `load_data`
(src/app.py lines 274-278): `data.get("patients", [])`,
`data.get("materials", [])`, `data.get("chat_history", \x7b\x7d)` — a missing
top-level key falls back to the empty collection.  The source performs no
validation of the values held by present keys; decoding is modelled strictly
(a present but ill-formed value fails), which no claim depends on. -/
def decodeDoc (j : Json) :
    Option (List Patient × List Material × List (String × List ChatMessage)) :=
  match j with
  | .obj kvs => do
    let ps ← decodePatients ((dictGet kvs "patients").getD (.arr []))
    let ms ← decodeMaterials ((dictGet kvs "materials").getD (.arr []))
    let ch ← decodeChatHistory ((dictGet kvs "chat_history").getD (.obj []))
    pure (ps, ms, ch)
  | _ => none

/-- What `load_data` finds at `patient_education_data.json`: no file at all,
a file whose content `json.load` cannot parse, or a parsed JSON document. -/
inductive FileState where
  | missing : FileState
  | malformed : FileState
  | doc (j : Json) : FileState

/-- The failure modes of `load_data`: `malformedDocument` models the
`json.JSONDecodeError` that propagates uncaught out of `load_data` (only
`FileNotFoundError` is caught, src/app.py lines 272-282); `invalidShape`
models a parsed document whose shape the rest of the program cannot use. -/
inductive PersistenceError where
  | malformedDocument : PersistenceError
  | invalidShape : PersistenceError
deriving DecidableEq

/-- `load_data` (src/app.py lines 272-282): on a missing file sets the three
persisted collections empty (the `except FileNotFoundError` branch); on an
unparseable file the parse error propagates (modelled as `PersistenceError`);
on a parsed document assigns each collection from the document with an empty
default.  `patient_assessments` is never touched. -/
def load_data (fs : FileState) (s : Session) : Except PersistenceError Session :=
  match fs with
  | .missing =>
    .ok { s with patient_records := [], generated_materials := [],
                 chat_history := [] }
  | .malformed => .error .malformedDocument
  | .doc j =>
    match decodeDoc j with
    | some (ps, ms, ch) =>
      .ok { s with patient_records := ps, generated_materials := ms,
                   chat_history := ch }
    | none => .error .invalidShape

/-- The list of top-level keys of a JSON document. -/
def jsonKeys : Json → List String
  | .obj kvs => kvs.map Prod.fst
  | _ => []

/-! ## Assessment scorer -/

/-- Python `user_responses.get(f"question_\x7bi\x7d")` (src/app.py line 108):
the submitted answers are keyed by question index; a missing key yields
`none` (Python `None`). -/
def rget : List (Nat × String) → Nat → Option String
  | [], _ => none
  | (k, v) :: t, i => if k = i then some v else rget t i

/-- The loop body of `evaluate_responses` (src/app.py lines 107-121),
recursing over the questions with their running index and producing the
correct count, the incorrect count and the feedback list. -/
def evalFrom (rs : List (Nat × String)) :
    Nat → List Question → Nat × Nat × List FeedbackEntry
  | _, [] => (0, 0, [])
  | i, q :: rest =>
    let ua := rget rs i
    let r := evalFrom rs (i + 1) rest
    if ua = some q.correct_answer then
      (r.1 + 1, r.2.1,
       { question := q.text, user_answer := ua,
         correct_answer := q.correct_answer,
         feedback := "✅ Correct! " ++ q.explanation } :: r.2.2)
    else
      (r.1, r.2.1 + 1,
       { question := q.text, user_answer := ua,
         correct_answer := q.correct_answer,
         feedback := "❌ Incorrect. The correct answer is: "
           ++ q.correct_answer ++ ". " ++ q.explanation } :: r.2.2)

/-- `evaluate_responses` (src/app.py lines 98-123): grades each question in
order against the submitted answers and returns the results dict. -/
def evaluate_responses (assessment : List Question)
    (user_responses : List (Nat × String)) : ScoreResult :=
  let r := evalFrom user_responses 0 assessment
  { total_questions := assessment.length
    correct_answers := r.1
    incorrect_answers := r.2.1
    feedback := r.2.2 }

/-- The feedback entry `evaluate_responses` builds for one question. -/
def mkFeedbackEntry (q : Question) (ua : Option String) : FeedbackEntry :=
  { question := q.text, user_answer := ua, correct_answer := q.correct_answer,
    feedback :=
      if ua = some q.correct_answer then "✅ Correct! " ++ q.explanation
      else "❌ Incorrect. The correct answer is: " ++ q.correct_answer
        ++ ". " ++ q.explanation }

/-- Default question used with `List.getD` in statements. -/
def qDefault : Question := { text := "", options := [], correct_answer := "",
                             explanation := "", category := "" }

/-- Default feedback entry used with `List.getD` in statements. -/
def fbDefault : FeedbackEntry := { question := "", user_answer := none,
                                   correct_answer := "", feedback := "" }

/-! ## JSON text parsing (Python `json.loads`) -/

/-- JSON whitespace (also what Python `str.strip` removes on the inputs
handled here). -/
def isWsChar (c : Char) : Bool :=
  c == ' ' || c == '\n' || c == '\t' || c == '\r'

def skipWs : List Char → List Char
  | [] => []
  | c :: cs => if isWsChar c then skipWs cs else c :: cs

/-- Parses the body of a JSON string after the opening quote, handling the
basic escapes; returns the decoded string and the remaining input. -/
def parseStringBody : List Char → List Char → Option (String × List Char)
  | [], _ => none
  | '"' :: rest, acc => some (String.mk acc.reverse, rest)
  | '\\' :: '"' :: rest, acc => parseStringBody rest ('"' :: acc)
  | '\\' :: '\\' :: rest, acc => parseStringBody rest ('\\' :: acc)
  | '\\' :: 'n' :: rest, acc => parseStringBody rest ('\n' :: acc)
  | '\\' :: 't' :: rest, acc => parseStringBody rest ('\t' :: acc)
  | '\\' :: '/' :: rest, acc => parseStringBody rest ('/' :: acc)
  | '\\' :: _, _ => none
  | c :: rest, acc => parseStringBody rest (c :: acc)

/-- Consumes a run of decimal digits, accumulating their value. -/
def digitsAux : List Char → Nat → Nat × List Char
  | [], acc => (acc, [])
  | c :: rest, acc =>
    if c.isDigit then digitsAux rest (acc * 10 + (c.toNat - 48))
    else (acc, c :: rest)

/-- Recursive-descent JSON value parser with explicit fuel (each recursive
call consumes one unit; callers supply `length + 2`, which suffices because
every recursive call strictly consumes input).  The tails of arrays and
objects are parsed by re-entering the parser on the remainder prefixed with
the opening bracket; a trailing comma is rejected first, as Python
`json.loads` rejects it. -/
def pv : Nat → List Char → Option (Json × List Char)
  | 0, _ => none
  | fuel + 1, input =>
    match skipWs input with
    | 'n' :: 'u' :: 'l' :: 'l' :: rest => some (.null, rest)
    | 't' :: 'r' :: 'u' :: 'e' :: rest => some (.bool true, rest)
    | 'f' :: 'a' :: 'l' :: 's' :: 'e' :: rest => some (.bool false, rest)
    | '"' :: rest => do
      let (s, r) ← parseStringBody rest []
      pure (.str s, r)
    | '[' :: rest =>
      (match skipWs rest with
      | ']' :: r => some (.arr [], r)
      | first => do
        let (v, after) ← pv fuel first
        match skipWs after with
        | ']' :: r => pure (.arr [v], r)
        | ',' :: more =>
          (match skipWs more with
          | ']' :: _ => none
          | _ => do
            let (tl, fin) ← pv fuel ('[' :: more)
            match tl with
            | .arr items => pure (.arr (v :: items), fin)
            | _ => none)
        | _ => none)
    | '{' :: rest =>
      (match skipWs rest with
      | '}' :: r => some (.obj [], r)
      | '"' :: krest => do
        let (k, afterK) ← parseStringBody krest []
        match skipWs afterK with
        | ':' :: vrest => do
          let (v, afterV) ← pv fuel vrest
          match skipWs afterV with
          | '}' :: r => pure (.obj [(k, v)], r)
          | ',' :: more =>
            (match skipWs more with
            | '"' :: _ => do
              let (tl, fin) ← pv fuel ('{' :: more)
              match tl with
              | .obj kvs => pure (.obj ((k, v) :: kvs), fin)
              | _ => none
            | _ => none)
          | _ => none
        | _ => none
      | _ => none)
    | '-' :: c :: rest =>
      if c.isDigit then
        let r := digitsAux (c :: rest) 0
        some (.num (-(r.1 : Int)), r.2)
      else none
    | c :: rest =>
      if c.isDigit then
        let r := digitsAux (c :: rest) 0
        some (.num (r.1 : Int), r.2)
      else none
    | [] => none

/-- Python `json.loads`, restricted to the JSON fragment this program
exchanges (objects, arrays, strings with basic escapes, integers, booleans,
null): parses one value and rejects trailing non-whitespace, returning
`none` where `json.loads` raises `JSONDecodeError`. -/
def json_loads (s : String) : Option Json :=
  match pv (s.data.length + 2) s.data with
  | some (j, rest) => if (skipWs rest).isEmpty then some j else none
  | none => none

/-! ## Knowledge-assessment generation (`generate_knowledge_assessment`) -/

/-- Python `str.strip()`: removes whitespace from both ends. -/
def pyStrip (cs : List Char) : List Char :=
  ((cs.dropWhile isWsChar).reverse.dropWhile isWsChar).reverse

/-- Python `.replace("json", "")`: removes every (non-overlapping,
left-to-right) occurrence of the substring `json`. -/
def removeJson : List Char → List Char
  | 'j' :: 's' :: 'o' :: 'n' :: rest => removeJson rest
  | c :: rest => c :: removeJson rest
  | [] => []

/-- The cleaning step of `generate_knowledge_assessment` (src/app.py line 81):
`response.text.strip().replace("json", "").replace("", "").strip()`.
In Python, `.replace("", "")` is the identity (it inserts the empty string
between characters), so — despite the comment on line 80 announcing the
removal of triple backticks — only the substring `json` is ever removed. -/
def clean_response (raw : String) : String :=
  String.mk (pyStrip (removeJson (pyStrip raw.data)))

/-- A failed remote model call (any exception raised by
`model.generate_content`). -/
inductive GenerationError where
  | remoteFailure : GenerationError
deriving DecidableEq

/-- The possible returns of `generate_knowledge_assessment`
(src/app.py lines 35-94): the parsed assessment object, the parse-failure
dict `\x7b"error": ..., "raw_response": cleaned\x7d` (note: it carries the
cleaned text, not the original), or the outer-exception dict
`\x7b"error": ...\x7d`. -/
inductive GKAResult where
  | assessment (j : Json) : GKAResult
  | parseFailed (raw_response : String) : GKAResult
  | generateFailed : GKAResult

/-- `generate_knowledge_assessment` (src/app.py lines 35-94), with the remote
call's outcome passed in as `response`: on success, cleans the raw text and
attempts to parse it as JSON; on parse failure returns the error dict
carrying the cleaned text; on remote failure returns the plain error dict. -/
def generate_knowledge_assessment (response : Except GenerationError String) :
    GKAResult :=
  match response with
  | .error _ => .generateFailed
  | .ok text =>
    let cleaned := clean_response text
    match json_loads cleaned with
    | some j => .assessment j
    | none => .parseFailed cleaned

/-! ## Store operations driven by the pages -/

/-- Failure of the required-field check on the Add Patient form
(src/app.py line 818: "Name and Medical Condition are required fields."). -/
inductive ValidationError where
  | missingRequiredFields : ValidationError
deriving DecidableEq

/-- The intake fields collected by the Add Patient form
(src/app.py lines 776-787). -/
structure IntakeFields where
  name : String
  age : Int
  gender : String
  education_level : String
  language : String
  condition : String
  treatment : String
  medications : String
  learning_style : String
  special_needs : String
deriving DecidableEq

/-- The Add Patient form submit handler (src/app.py lines 789-818) — the
operation the spec calls `create_patient`.  `newId` stands for the fresh
`str(uuid.uuid4())` and `dateAdded` for the formatted `datetime.now()`.
Python's `if name and condition:` succeeds exactly when both strings are
non-empty.  Returns the updated session, the document written by the
triggered `save_data()` (`none` when nothing was flushed), and the outcome. -/
def create_patient (newId dateAdded : String) (f : IntakeFields) (s : Session) :
    Session × Option Json × Except ValidationError Patient :=
  if f.name ≠ "" ∧ f.condition ≠ "" then
    let p : Patient :=
      { id := newId, name := f.name, age := f.age, gender := f.gender,
        education_level := f.education_level, language := f.language,
        condition := f.condition, treatment := f.treatment,
        medications := f.medications, learning_style := f.learning_style,
        special_needs := f.special_needs, date_added := dateAdded }
    let s' := { s with
      patient_records := s.patient_records ++ [p],
      chat_history := dictSet s.chat_history newId [] }
    (s', some (save_data s'), .ok p)
  else
    (s, none, .error .missingRequiredFields)

/-- `generate_patient_education` (src/app.py lines 165-220), with the remote
call's outcome passed in as `genResult` and the fresh uuid/timestamp as
parameters.  On success it appends the material and flushes; on failure the
`except` branch returns the error text having touched nothing. -/
def generate_patient_education (genResult : Except GenerationError String)
    (newMatId ts : String) (patient : Patient) (s : Session) :
    Session × Option Json × String :=
  match genResult with
  | .ok text =>
    let material : Material :=
      { id := newMatId, patient_id := patient.id,
        patient_name := patient.name, condition := patient.condition,
        content := text, timestamp := ts }
    let s' := { s with generated_materials := s.generated_materials ++ [material] }
    (s', some (save_data s'), text)
  | .error _ =>
    (s, none,
     "Error generating content. Please check your Gemini API key and try again.")

/-- `chat_with_patient` (src/app.py lines 223-260): returns the generated
reply, or the fallback apology text when the remote call fails. -/
def chat_with_patient (genResult : Except GenerationError String) : String :=
  match genResult with
  | .ok t => t
  | .error _ =>
    "I\x27m sorry, I\x27m having trouble connecting to my knowledge base. Please try again later or contact your healthcare provider for assistance."

/-- The Patient Chat page around the Send button (src/app.py lines 906-975):
ensures a history entry exists for the patient (lines 907-908), appends the
user's message, obtains the bot reply via `chat_with_patient` (the fallback
text when the remote call fails), appends it as the assistant message, and
flushes the store. -/
def chat_send (genResult : Except GenerationError String)
    (patient_id user_question ts1 ts2 : String) (s : Session) :
    Session × Option Json :=
  let ch0 :=
    if (dictGet s.chat_history patient_id).isSome then s.chat_history
    else dictSet s.chat_history patient_id []
  let userMsg : ChatMessage :=
    { role := "user", content := user_question, timestamp := ts1 }
  let ch1 := dictSet ch0 patient_id ((dictGet ch0 patient_id).getD [] ++ [userMsg])
  let botMsg : ChatMessage :=
    { role := "assistant", content := chat_with_patient genResult,
      timestamp := ts2 }
  let ch2 := dictSet ch1 patient_id ((dictGet ch1 patient_id).getD [] ++ [botMsg])
  let s' := { s with chat_history := ch2 }
  (s', some (save_data s'))

/-- Removal of the first material with the given id, as
`st.session_state.generated_materials.remove(material)` does for the
(unique-id) material whose Delete button was pressed. -/
def removeById : List Material → String → List Material
  | [], _ => []
  | m :: t, mid => if m.id = mid then t else m :: removeById t mid

/-- The View Materials Delete handler (src/app.py lines 1015-1033) seen as an
operation on a material id — the spec's `remove_material`.  A Delete button
exists only for materials currently in the collection, so an absent id
triggers nothing (no removal, no flush, no error); a present id removes that
material and flushes. -/
def delete_material (material_id : String) (s : Session) :
    Session × Option Json :=
  if s.generated_materials.any (fun m => m.id == material_id) then
    let s' := { s with
      generated_materials := removeById s.generated_materials material_id }
    (s', some (save_data s'))
  else
    (s, none)

/-- A persisted document containing an arbitrary subset of the three
top-level collections — the family of valid-JSON documents with missing
keys that claim C10 quantifies over. -/
def subsetDoc (incP incM incC : Bool) (ps : List Patient) (ms : List Material)
    (ch : List (String × List ChatMessage)) : Json :=
  .obj ((if incP then [("patients", Json.arr (ps.map encodePatient))] else [])
    ++ (if incM then [("materials", Json.arr (ms.map encodeMaterial))] else [])
    ++ (if incC then [("chat_history", encodeChatHistory ch)] else []))

/-! ## Helper lemmas -/

theorem dictGet_dictSet {α : Type} (m : List (String × α)) (k : String) (v : α) :
    dictGet (dictSet m k v) k = some v := by
  induction m with
  | nil => simp [dictSet, dictGet]
  | cons kv t ih =>
    by_cases h : kv.1 = k
    · simp [dictSet, dictGet, h]
    · simp [dictSet, dictGet, h, ih]

theorem decodePatient_encodePatient (p : Patient) :
    decodePatient (encodePatient p) = some p := by
  rfl

theorem decodePatientList_map (ps : List Patient) :
    decodePatientList (ps.map encodePatient) = some ps := by
  induction ps with
  | nil => rfl
  | cons p t ih =>
    simp [decodePatientList, decodePatient_encodePatient, ih]

theorem decodeMaterial_encodeMaterial (m : Material) :
    decodeMaterial (encodeMaterial m) = some m := by
  rfl

theorem decodeMaterialList_map (ms : List Material) :
    decodeMaterialList (ms.map encodeMaterial) = some ms := by
  induction ms with
  | nil => rfl
  | cons m t ih =>
    simp [decodeMaterialList, decodeMaterial_encodeMaterial, ih]

theorem decodeChatMessage_encodeChatMessage (m : ChatMessage) :
    decodeChatMessage (encodeChatMessage m) = some m := by
  rfl

theorem decodeChatMessageList_map (ms : List ChatMessage) :
    decodeChatMessageList (ms.map encodeChatMessage) = some ms := by
  induction ms with
  | nil => rfl
  | cons m t ih =>
    simp [decodeChatMessageList, decodeChatMessage_encodeChatMessage, ih]

theorem decodeChatEntries_encode (ch : List (String × List ChatMessage)) :
    decodeChatEntries
      (ch.map (fun kv => (kv.1, Json.arr (kv.2.map encodeChatMessage))))
      = some ch := by
  induction ch with
  | nil => rfl
  | cons kv t ih =>
    simp [decodeChatEntries, decodeChatMessageList_map, ih]

theorem decodeChatHistory_encodeChatHistory
    (ch : List (String × List ChatMessage)) :
    decodeChatHistory (encodeChatHistory ch) = some ch := by
  simp [decodeChatHistory, encodeChatHistory, decodeChatEntries_encode]

theorem decodeDoc_save_data (s : Session) :
    decodeDoc (save_data s) =
      some (s.patient_records, s.generated_materials, s.chat_history) := by
  simp [decodeDoc, save_data, dictGet, decodePatients, decodePatientList_map,
        decodeMaterials, decodeMaterialList_map,
        decodeChatHistory_encodeChatHistory]

theorem evalFrom_counts (rs : List (Nat × String)) :
    ∀ (qs : List Question) (i : Nat),
      (evalFrom rs i qs).1 + (evalFrom rs i qs).2.1 = qs.length := by
  intro qs
  induction qs with
  | nil => intro i; rfl
  | cons q rest ih =>
    intro i
    have h := ih (i + 1)
    simp only [evalFrom]
    split <;> simp <;> omega

theorem evalFrom_fb_length (rs : List (Nat × String)) :
    ∀ (qs : List Question) (i : Nat),
      (evalFrom rs i qs).2.2.length = qs.length := by
  intro qs
  induction qs with
  | nil => intro i; rfl
  | cons q rest ih =>
    intro i
    simp only [evalFrom]
    split <;> simp [ih (i + 1)]

theorem evalFrom_fb_getD (rs : List (Nat × String)) :
    ∀ (qs : List Question) (i j : Nat), j < qs.length →
      (evalFrom rs i qs).2.2.getD j fbDefault =
        mkFeedbackEntry (qs.getD j qDefault) (rget rs (i + j)) := by
  intro qs
  induction qs with
  | nil => intro i j h; exact absurd h (Nat.not_lt_zero j)
  | cons q rest ih =>
    intro i j h
    cases j with
    | zero =>
      simp only [evalFrom, List.getD_cons_zero, Nat.add_zero]
      split
      · next hc => simp [mkFeedbackEntry, hc]
      · next hc => simp [mkFeedbackEntry, hc]
    | succ j =>
      have hj : j < rest.length := Nat.lt_of_succ_lt_succ h
      have hrec := ih (i + 1) j hj
      have hidx : i + 1 + j = i + (j + 1) := by omega
      rw [hidx] at hrec
      simp only [evalFrom]
      split <;> simpa [List.getD_cons_succ] using hrec

theorem evalFrom_all_correct (rs : List (Nat × String)) :
    ∀ (qs : List Question) (i : Nat),
      (∀ j, j < qs.length →
        rget rs (i + j) = some ((qs.getD j qDefault).correct_answer)) →
      (evalFrom rs i qs).2.1 = 0 := by
  intro qs
  induction qs with
  | nil => intro i _; rfl
  | cons q rest ih =>
    intro i hall
    have h0 : rget rs i = some q.correct_answer := by
      simpa using hall 0 (Nat.succ_pos rest.length)
    have hrest : ∀ j, j < rest.length →
        rget rs (i + 1 + j) = some ((rest.getD j qDefault).correct_answer) := by
      intro j hj
      have := hall (j + 1) (Nat.succ_lt_succ hj)
      have hidx : i + (j + 1) = i + 1 + j := by omega
      rw [hidx] at this
      simpa [List.getD_cons_succ] using this
    simp only [evalFrom]
    split
    · exact ih (i + 1) hrest
    · next hc => exact absurd h0 hc

theorem rget_nil (i : Nat) : rget [] i = none := rfl

theorem evalFrom_no_responses :
    ∀ (qs : List Question) (i : Nat), (evalFrom [] i qs).1 = 0 := by
  intro qs
  induction qs with
  | nil => intro i; rfl
  | cons q rest ih =>
    intro i
    simp only [evalFrom]
    split
    · next hc => simp [rget_nil] at hc
    · exact ih (i + 1)

theorem removeById_length (ms : List Material) (mid : String)
    (h : mid ∈ ms.map Material.id) :
    (removeById ms mid).length + 1 = ms.length := by
  induction ms with
  | nil => simp at h
  | cons m t ih =>
    by_cases hm : m.id = mid
    · simp [removeById, hm]
    · have ht : mid ∈ t.map Material.id := by
        rcases List.mem_map.mp h with ⟨x, hx, hid⟩
        rcases List.mem_cons.mp hx with hx1 | hx2
        · exact absurd (hx1 ▸ hid) hm
        · exact List.mem_map.mpr ⟨x, hx2, hid⟩
      simp [removeById, hm, ih ht]

theorem materials_any_iff (ms : List Material) (mid : String) :
    (ms.any (fun m => m.id == mid) = true) ↔ mid ∈ ms.map Material.id := by
  rw [List.any_eq_true]
  constructor
  · rintro ⟨m, hm, he⟩
    exact List.mem_map.mpr ⟨m, hm, beq_iff_eq.mp he⟩
  · intro h
    rcases List.mem_map.mp h with ⟨m, hm, hid⟩
    exact ⟨m, hm, beq_iff_eq.mpr hid⟩

/-! ## Claim theorems -/

/-- Claim C1 (code_bug evidence): a raw model response consisting of valid
JSON wrapped in code-fence markers is NOT returned parsed.  The first
conjunct shows the unfenced body is valid JSON; the second shows the
cleaning step keeps the backticks (removing only the substring `json`,
since `replace("", "")` is a no-op, contradicting the source's own comment
about removing triple backticks); the third shows
`generate_knowledge_assessment` consequently returns the parse-failure dict
— carrying the cleaned text rather than the original — instead of the
parsed object.  The fourth conjunct checks the prose branch: non-JSON prose
also yields the parse-failure dict. -/
theorem generate_knowledge_assessment_fenced_json :
    json_loads "\x7b\"questions\": []\x7d" =
      some (Json.obj [("questions", Json.arr [])]) ∧
    clean_response "```json\n\x7b\"questions\": []\x7d\n```" =
      "```\n\x7b\"questions\": []\x7d\n```" ∧
    generate_knowledge_assessment
        (Except.ok "```json\n\x7b\"questions\": []\x7d\n```") =
      GKAResult.parseFailed "```\n\x7b\"questions\": []\x7d\n```" ∧
    generate_knowledge_assessment (Except.ok "I cannot answer that.") =
      GKAResult.parseFailed "I cannot answer that." := by
  refine ⟨rfl, rfl, rfl, rfl⟩

/-- Claim C2: `evaluate_responses` compares each question's submitted answer
by exact string equality with `correct_answer` (a missing submission — `none`
— never matches, so it counts as incorrect), and returns
`total = len(questions)`, `incorrect = total - correct`, and an ordered
feedback list with exactly one entry per question holding the question text,
the submitted answer (`none` as the absence marker), the correct answer, and
a feedback string ending in the question's explanation; if every submitted
answer is correct then `incorrect = 0` and `correct = total`, and if the
answer mapping is empty then `correct = 0`. -/
theorem evaluate_responses_spec (qs : List Question) (rs : List (Nat × String)) :
    (evaluate_responses qs rs).total_questions = qs.length ∧
    (evaluate_responses qs rs).correct_answers
      + (evaluate_responses qs rs).incorrect_answers = qs.length ∧
    (evaluate_responses qs rs).incorrect_answers
      = qs.length - (evaluate_responses qs rs).correct_answers ∧
    (evaluate_responses qs rs).feedback.length = qs.length ∧
    (∀ j, j < qs.length →
      (evaluate_responses qs rs).feedback.getD j fbDefault =
        mkFeedbackEntry (qs.getD j qDefault) (rget rs j)) ∧
    ((∀ j, j < qs.length →
        rget rs j = some ((qs.getD j qDefault).correct_answer)) →
      (evaluate_responses qs rs).incorrect_answers = 0 ∧
      (evaluate_responses qs rs).correct_answers = qs.length) ∧
    (rs = [] → (evaluate_responses qs rs).correct_answers = 0) := by
  have hc := evalFrom_counts rs qs 0
  have hcc : (evaluate_responses qs rs).correct_answers
      = (evalFrom rs 0 qs).1 := rfl
  have hii : (evaluate_responses qs rs).incorrect_answers
      = (evalFrom rs 0 qs).2.1 := rfl
  refine ⟨rfl, by omega, by omega, evalFrom_fb_length rs qs 0, ?_, ?_, ?_⟩
  · intro j hj
    simpa using evalFrom_fb_getD rs qs 0 j hj
  · intro hall
    have hinc : (evalFrom rs 0 qs).2.1 = 0 :=
      evalFrom_all_correct rs qs 0 (by simpa using hall)
    constructor <;> omega
  · intro h
    subst h
    exact evalFrom_no_responses qs 0

/-- Claim C2 witness: a one-question assessment with the matching answer
submitted scores incorrect = 0 and correct = total. -/
theorem evaluate_responses_spec_witness :
    (evaluate_responses
        [{ text := "Q1", options := ["A", "B"], correct_answer := "B",
           explanation := "E1", category := "basics" }]
        [(0, "B")]).incorrect_answers = 0 ∧
    (evaluate_responses
        [{ text := "Q1", options := ["A", "B"], correct_answer := "B",
           explanation := "E1", category := "basics" }]
        [(0, "B")]).correct_answers = 1 := by
  have h := evaluate_responses_spec
    [{ text := "Q1", options := ["A", "B"], correct_answer := "B",
       explanation := "E1", category := "basics" }]
    [(0, "B")]
  have hac := h.2.2.2.2.2.1 (by
    intro j hj
    have hj0 : j = 0 := by simpa using Nat.lt_one_iff.mp (by simpa using hj)
    subst hj0
    rfl)
  exact ⟨hac.1, hac.2⟩

/-- Claim C3: saving and then loading reproduces the patients, the materials
(order preserved), and the chat histories (message order preserved per
patient) exactly, into any session it is loaded over. -/
theorem save_load_roundtrip (s t : Session) :
    ∃ s', load_data (.doc (save_data s)) t = .ok s' ∧
      s'.patient_records = s.patient_records ∧
      s'.generated_materials = s.generated_materials ∧
      s'.chat_history = s.chat_history := by
  refine ⟨{ t with patient_records := s.patient_records,
                   generated_materials := s.generated_materials,
                   chat_history := s.chat_history }, ?_, rfl, rfl, rfl⟩
  simp [load_data, decodeDoc_save_data]

/-- Claim C4: the persisted document is a single JSON object whose top-level
keys are exactly `patients`, `materials` and `chat_history`, and the
knowledge-assessment map never influences (nor appears in) the persisted
document — it lives only in volatile session memory. -/
theorem save_data_top_level_keys (s : Session)
    (a : List (String × PatientAssessment)) :
    jsonKeys (save_data s) = ["patients", "materials", "chat_history"] ∧
    save_data { s with patient_assessments := a } = save_data s := by
  exact ⟨rfl, rfl⟩

/-- Claim C5: loading from a missing document initializes the three
persisted collections empty without an error, and loading a present but
malformed document fails with the persistence error (the
`json.JSONDecodeError` that `load_data` does not catch). -/
theorem load_data_missing_and_malformed (s : Session) :
    load_data .missing s =
      .ok { s with patient_records := [], generated_materials := [],
                   chat_history := [] } ∧
    load_data .malformed s = .error .malformedDocument := by
  exact ⟨rfl, rfl⟩

/-- Claim C6: submitting the Add Patient form with an empty name or an empty
condition fails with the validation error, leaves the session (in particular
the patient collection) unchanged, and flushes nothing. -/
theorem create_patient_empty_fields (newId dateAdded : String)
    (f : IntakeFields) (s : Session) (h : f.name = "" ∨ f.condition = "") :
    create_patient newId dateAdded f s =
      (s, none, .error .missingRequiredFields) := by
  rcases h with h | h <;> simp [create_patient, h]

/-- Claim C6 witness: an intake with empty name is rejected and mutates
nothing. -/
theorem create_patient_empty_fields_witness :
    create_patient "id-1" "2025-01-01 00:00:00"
      { name := "", age := 30, gender := "Male",
        education_level := "College", language := "English",
        condition := "Diabetes", treatment := "", medications := "",
        learning_style := "Visual", special_needs := "" }
      { patient_records := [], generated_materials := [], chat_history := [],
        patient_assessments := [] } =
    ({ patient_records := [], generated_materials := [], chat_history := [],
       patient_assessments := [] }, none, .error .missingRequiredFields) :=
  create_patient_empty_fields "id-1" "2025-01-01 00:00:00" _ _ (Or.inl rfl)

/-- Claim C7: with non-empty name and condition, and a fresh non-empty id
(what `str(uuid.uuid4())` supplies), the Add Patient handler returns a
profile carrying that id (non-empty and distinct from all ids in the
collection, preserving no-duplicate ids), appends it to the patient
collection, initializes an empty chat history entry for the new id, and
flushes the full store. -/
theorem create_patient_valid (newId dateAdded : String) (f : IntakeFields)
    (s : Session) (hname : f.name ≠ "") (hcond : f.condition ≠ "")
    (hid : newId ≠ "") (hfresh : newId ∉ s.patient_records.map Patient.id) :
    ∃ p : Patient,
      create_patient newId dateAdded f s =
        ({ s with patient_records := s.patient_records ++ [p],
                  chat_history := dictSet s.chat_history newId [] },
         some (save_data
           { s with patient_records := s.patient_records ++ [p],
                    chat_history := dictSet s.chat_history newId [] }),
         .ok p) ∧
      p.id = newId ∧ p.id ≠ "" ∧
      p.id ∉ s.patient_records.map Patient.id ∧
      dictGet (dictSet s.chat_history newId []) newId = some [] ∧
      ((s.patient_records.map Patient.id).Nodup →
        ((s.patient_records ++ [p]).map Patient.id).Nodup) := by
  refine ⟨{ id := newId, name := f.name, age := f.age, gender := f.gender,
            education_level := f.education_level, language := f.language,
            condition := f.condition, treatment := f.treatment,
            medications := f.medications, learning_style := f.learning_style,
            special_needs := f.special_needs, date_added := dateAdded },
          ?_, rfl, hid, hfresh, dictGet_dictSet _ _ _, ?_⟩
  · simp [create_patient, hname, hcond]
  · intro hnd
    simp [List.nodup_append, hnd, hfresh]

/-- Claim C7 witness: creating a patient with valid fields in an empty store
yields the fresh id, the appended record, the empty chat entry and the
flush. -/
theorem create_patient_valid_witness :
    ∃ p : Patient,
      create_patient "id-1" "2025-01-01 00:00:00"
        { name := "Ada", age := 30, gender := "Female",
          education_level := "College", language := "English",
          condition := "Diabetes", treatment := "insulin",
          medications := "metformin", learning_style := "Visual",
          special_needs := "" }
        { patient_records := [], generated_materials := [],
          chat_history := [], patient_assessments := [] } =
        ({ patient_records := [] ++ [p],
           chat_history := dictSet [] "id-1" [],
           generated_materials := [], patient_assessments := [] },
         some (save_data
           { patient_records := [] ++ [p],
             chat_history := dictSet [] "id-1" [],
             generated_materials := [], patient_assessments := [] }),
         .ok p) ∧
      p.id = "id-1" ∧ p.id ≠ "" ∧
      p.id ∉ ([] : List Patient).map Patient.id ∧
      dictGet (dictSet [] "id-1" []) "id-1" = some ([] : List ChatMessage) ∧
      ((([] : List Patient).map Patient.id).Nodup →
        ((([] : List Patient) ++ [p]).map Patient.id).Nodup) :=
  create_patient_valid "id-1" "2025-01-01 00:00:00" _ _
    (by decide) (by decide) (by decide) (by simp)

/-- Claim C8 counterexample: a failed chat generation does write state — the
Send handler appends the user's message and the fallback assistant reply to
the chat history (and flushes), so the chat history of the concrete store is
NOT unchanged by the failed action. -/
theorem chat_send_failure_mutates_state :
    (chat_send (.error .remoteFailure) "p1" "How often should I exercise?"
        "2025-01-01 10:00:00" "2025-01-01 10:00:01"
        { patient_records := [], generated_materials := [],
          chat_history := [("p1", [])],
          patient_assessments := [] }).1.chat_history
      ≠ [("p1", [])] := by
  decide

/-- Claim C8 (amended): when the remote call fails, the material-generation
path writes no partial state (session unchanged, nothing flushed, the error
text returned); the chat path, however, still appends the user message and
the fallback assistant reply to that patient's chat history and flushes the
full store, while leaving the patient and material collections unchanged. -/
theorem generation_failure_effects (e : GenerationError)
    (newMatId ts : String) (patient : Patient)
    (pid q t1 t2 : String) (s : Session) :
    generate_patient_education (.error e) newMatId ts patient s =
      (s, none,
       "Error generating content. Please check your Gemini API key and try again.") ∧
    (chat_send (.error e) pid q t1 t2 s).1.patient_records
      = s.patient_records ∧
    (chat_send (.error e) pid q t1 t2 s).1.generated_materials
      = s.generated_materials ∧
    dictGet (chat_send (.error e) pid q t1 t2 s).1.chat_history pid =
      some ((dictGet s.chat_history pid).getD [] ++
        [{ role := "user", content := q, timestamp := t1 },
         { role := "assistant", content := chat_with_patient (.error e),
           timestamp := t2 }]) ∧
    (chat_send (.error e) pid q t1 t2 s).2 =
      some (save_data (chat_send (.error e) pid q t1 t2 s).1) := by
  refine ⟨rfl, rfl, rfl, ?_, rfl⟩
  by_cases h : (dictGet s.chat_history pid).isSome
  · obtain ⟨l, hl⟩ := Option.isSome_iff_exists.mp h
    simp [chat_send, h, hl, dictGet_dictSet]
  · have hn : dictGet s.chat_history pid = none :=
      Option.not_isSome_iff_eq_none.mp h
    simp [chat_send, hn, dictGet_dictSet]

/-- Claim C9: deleting a material id absent from the collection is a silent
no-op (no error, session unchanged, nothing flushed); deleting a present id
removes that material (the collection shrinks by one) and flushes the
store. -/
theorem delete_material_spec (mid : String) (s : Session) :
    (mid ∉ s.generated_materials.map Material.id →
      delete_material mid s = (s, none)) ∧
    (mid ∈ s.generated_materials.map Material.id →
      delete_material mid s =
        ({ s with generated_materials := removeById s.generated_materials mid },
         some (save_data
           { s with generated_materials := removeById s.generated_materials mid })) ∧
      (removeById s.generated_materials mid).length + 1
        = s.generated_materials.length) := by
  constructor
  · intro h
    have hb : s.generated_materials.any (fun m => m.id == mid) = false := by
      rcases hb : s.generated_materials.any (fun m => m.id == mid) with _ | _
      · rfl
      · exact absurd ((materials_any_iff _ _).mp hb) h
    simp [delete_material, hb]
  · intro h
    have hb : s.generated_materials.any (fun m => m.id == mid) = true :=
      (materials_any_iff _ _).mpr h
    exact ⟨by simp [delete_material, hb], removeById_length _ _ h⟩

/-- Claim C9 witness: deleting the id `nonexistent-id` from a store holding
one material with a different id does not raise and changes nothing. -/
theorem delete_material_spec_witness :
    delete_material "nonexistent-id"
      { patient_records := [],
        generated_materials :=
          [{ id := "m1", patient_id := "p1", patient_name := "Ada",
             condition := "Diabetes", content := "text",
             timestamp := "2025-01-01 00:00:00" }],
        chat_history := [], patient_assessments := [] } =
    ({ patient_records := [],
       generated_materials :=
         [{ id := "m1", patient_id := "p1", patient_name := "Ada",
            condition := "Diabetes", content := "text",
            timestamp := "2025-01-01 00:00:00" }],
       chat_history := [], patient_assessments := [] }, none) :=
  (delete_material_spec "nonexistent-id" _).1 (by decide)

/-- Claim C10: loading a valid JSON document that carries any subset of the
three top-level keys succeeds, initializing each missing collection to empty
while loading the collections whose keys are present. -/
theorem load_data_missing_keys (bp bm bc : Bool) (ps : List Patient)
    (ms : List Material) (ch : List (String × List ChatMessage))
    (t : Session) :
    load_data (.doc (subsetDoc bp bm bc ps ms ch)) t =
      .ok { t with
        patient_records := if bp then ps else [],
        generated_materials := if bm then ms else [],
        chat_history := if bc then ch else [] } := by
  cases bp <;> cases bm <;> cases bc <;>
    simp [load_data, subsetDoc, encodeChatHistory, decodeDoc, dictGet,
          decodePatients, decodePatientList, decodePatientList_map,
          decodeMaterials, decodeMaterialList, decodeMaterialList_map,
          decodeChatHistory, decodeChatEntries, decodeChatEntries_encode]

end PatientEducation
